import Mathlib

/-!
Verification of the inpokedex backend (src/backend/src/app.ts): a proxy over
the PokeAPI that localizes names and type labels to Korean, with a
startup-populated translation cache and two HTTP endpoints.

The embedding models JavaScript values faithfully:
- a JSON field that may be `null` or absent is an `Option`;
- JS truthiness of a string is `s ≠ ""` (the empty string is falsy), so the
  idiom `x || y` on an optional string is `orElseStr`;
- `parseInt` is modelled by `parseIntJS` (leading whitespace, sign, optional
  0x prefix, longest digit prefix, `none` for NaN);
- `axios` fetches are modelled by an explicit world of `Except`-valued
  responses; `Promise.all` over a map is the order-preserving `mapME`, whose
  result fails exactly when some element fails;
- the route-level `try/catch` is the `match` on the `Except` result that
  collapses every failure into a `serverError`.
-/

namespace Inpokedex

/-- JS `x || y` where `x : Option String` stands for a possibly
null/undefined string: the empty string is falsy, so it also falls through. -/
def orElseStr (x : Option String) (y : String) : String :=
  match x with
  | some s => if s = "" then y else s
  | none => y

/-! ## parseInt model -/

/-- Decimal digit value of a character, `none` if not a decimal digit. -/
def decDigit? (c : Char) : Option Nat :=
  if c.isDigit then some (c.toNat - 48) else none

/-- Hexadecimal digit value of a character, `none` if not a hex digit. -/
def hexDigit? (c : Char) : Option Nat :=
  if c.isDigit then some (c.toNat - 48)
  else if 'a' ≤ c ∧ c ≤ 'f' then some (c.toNat - 87)
  else if 'A' ≤ c ∧ c ≤ 'F' then some (c.toNat - 55)
  else none

/-- Accumulate the longest prefix of digits (w.r.t. `digit?`) at base `b`;
`none` when no digit was consumed at all (JS `NaN`). -/
def takeDigits (digit? : Char → Option Nat) (b : Nat) :
    List Char → Nat → Bool → Option Nat
  | [], acc, seen => if seen then some acc else none
  | c :: rest, acc, seen =>
    match digit? c with
    | some d => takeDigits digit? b rest (acc * b + d) true
    | none => if seen then some acc else none

/-- Characters `parseInt` skips as leading whitespace. -/
def isJsSpace (c : Char) : Bool :=
  c = ' ' || c = '\t' || c = '\n' || c = '\r' || c = '\x0b' || c = '\x0c'

/-- Model of JavaScript `parseInt(s)` (radix unspecified): skip leading
whitespace, optional sign, `0x`/`0X` switches to base 16, then the longest
digit prefix; `none` is `NaN`. -/
def parseIntJS (s : String) : Option Int :=
  let cs := s.toList.dropWhile isJsSpace
  let signed : Int × List Char :=
    match cs with
    | '-' :: r => (-1, r)
    | '+' :: r => (1, r)
    | _ => (1, cs)
  let afterRadix : (Char → Option Nat) × Nat × List Char :=
    match signed.2 with
    | '0' :: 'x' :: r => (hexDigit?, 16, r)
    | '0' :: 'X' :: r => (hexDigit?, 16, r)
    | r => (decDigit?, 10, r)
  (takeDigits afterRadix.1 afterRadix.2.1 afterRadix.2.2 0 false).map
    (fun n => signed.1 * n)

/-- `parseInt(q) || dflt`: an absent query parameter, a NaN parse, and a
parse to 0 (0 is falsy) all yield the default. -/
def queryIntOr (q : Option String) (dflt : Int) : Int :=
  match q with
  | none => dflt
  | some s =>
    match parseIntJS s with
    | none => dflt
    | some n => if n = 0 then dflt else n

/-! ## Upstream payload shapes (only the fields the backend reads) -/

/-- One entry of an upstream multi-locale `names` list:
`{ name, language: { name } }`. -/
structure NameEntry where
  name : String
  languageName : String
deriving DecidableEq, Repr

/-- `names.find(n => n.language.name === 'ko')?.name`. -/
def findKoName (names : List NameEntry) : Option String :=
  (names.find? (fun n => n.languageName = "ko")).map (fun n => n.name)

/-- `names.find(... 'ko')?.name || fallback`. -/
def koreanNameOr (names : List NameEntry) (fallback : String) : String :=
  orElseStr (findKoName names) fallback

/-- An entry of the `/type?limit=18` results: `{ name, url }`. -/
structure TypeRef where
  name : String
  url : String
deriving DecidableEq, Repr

/-- A type detail payload: the backend only reads its `names`. -/
structure TypeDetail where
  names : List NameEntry
deriving DecidableEq, Repr

/-- An entry of the `/pokemon?offset&limit` results: `{ name, url }`. -/
structure PokemonRef where
  name : String
  url : String
deriving DecidableEq, Repr

/-- `sprites.versions['generation-v']['black-white'].animated`. -/
structure AnimatedSprites where
  front_default : Option String
deriving DecidableEq, Repr

/-- `sprites.versions['generation-v']['black-white']`. -/
structure BlackWhiteSprites where
  animated : Option AnimatedSprites
deriving DecidableEq, Repr

/-- `sprites.versions['generation-v']`. -/
structure GenerationV where
  blackWhite : Option BlackWhiteSprites
deriving DecidableEq, Repr

/-- `sprites.versions`. -/
structure SpriteVersions where
  generationV : Option GenerationV
deriving DecidableEq, Repr

/-- `sprites.other['official-artwork']`. -/
structure OfficialArtwork where
  front_default : Option String
deriving DecidableEq, Repr

/-- `sprites.other`. -/
structure OtherSprites where
  officialArtwork : Option OfficialArtwork
deriving DecidableEq, Repr

/-- The `sprites` object of a pokemon detail payload. -/
structure Sprites where
  versions : Option SpriteVersions
  other : Option OtherSprites
  front_default : Option String
deriving DecidableEq, Repr

/-- One entry of a pokemon detail's `types` array; the backend reads
`typeInfo.type.name`. -/
structure TypeSlot where
  typeName : String
deriving DecidableEq, Repr

/-- A pokemon detail payload: the fields the backend reads (`name`, `types`,
`sprites`), plus `rest`, opaque key-value pairs standing for every other
upstream field, which the detail endpoint spreads through unchanged. -/
structure PokemonData where
  name : String
  types : List TypeSlot
  sprites : Sprites
  rest : List (String × String)
deriving DecidableEq, Repr

/-- A pokemon-species payload: the backend only reads its `names`. -/
structure SpeciesData where
  names : List NameEntry
deriving DecidableEq, Repr

/-- The `/pokemon?offset&limit` list response: `{ count, results }`. -/
structure ListResponse where
  count : Nat
  results : List PokemonRef
deriving DecidableEq, Repr

/-! ## Translation cache (typeKoreanNames) -/

/-- The translation cache: JS object used as a string-to-string map; the
most recent assignment to a key wins, so insertion conses to the front and
lookup takes the first hit. -/
abbrev Cache := List (String × String)

/-- `typeKoreanNames[k]`: `some v` when the key is present. -/
def lookupCache (c : Cache) (k : String) : Option String :=
  (c.find? (fun p => p.1 = k)).map (fun p => p.2)

/-- `typeKoreanNames[k] || k`: the cached label, or the raw key when absent
(or when an empty string was cached, empty being falsy). -/
def labelFor (c : Cache) (k : String) : String :=
  orElseStr (lookupCache c k) k

/-- The upstream world seen by `loadTypeTranslations`: the type-list call
and the per-type detail calls, each of which may fail. -/
structure TypeWorld where
  typeList : Except String (List TypeRef)
  typeDetail : String → Except String TypeDetail

/-- The body of one `types.map` callback in `loadTypeTranslations`:
`if (koreanName) typeKoreanNames[type.name] = koreanName` where
`koreanName = detail.names.find(... 'ko')?.name` — inserted only when
truthy (present and non-empty). -/
def insertLabel (c : Cache) (t : TypeRef) (d : TypeDetail) : Cache :=
  match findKoName d.names with
  | some kn => if kn = "" then c else (t.name, kn) :: c
  | none => c

/-- Effect of one settled `types.map` callback on the cache: a successful
detail fetch inserts via `insertLabel`, a failed one leaves the cache
untouched. -/
def typeCallback (detail : String → Except String TypeDetail)
    (c : Cache) (t : TypeRef) : Cache :=
  match detail t.url with
  | .ok d => insertLabel c t d
  | .error _ => c

/-- Run the per-type callbacks over the type list: a type whose detail
fetch succeeds contributes via `insertLabel`; a failed detail fetch makes
`Promise.all` reject, but the remaining callbacks still run and mutate the
cache when their own fetches succeed, so the eventual cache content is the
fold over all successful details. -/
def populateTypes (detail : String → Except String TypeDetail) :
    List TypeRef → Cache → Cache
  | [], c => c
  | t :: ts, c => populateTypes detail ts (typeCallback detail c t)

/-- `loadTypeTranslations`: fetch the type list; on failure the catch only
logs and the cache stays empty; on success populate from the per-type
details. -/
def loadTypeTranslations (w : TypeWorld) : Cache :=
  match w.typeList with
  | .error _ => []
  | .ok types => populateTypes w.typeDetail types []

/-! ## Image selection -/

/-- The animated-GIF selection: `animatedImageUrl` starts at `null` and is
set only when the whole chain
`sprites.versions && ...['generation-v'] && ...['black-white'] &&
...animated && ...animated.front_default` is truthy; the final link is a
string, so an empty string leaves it `null`. -/
def animatedImageUrl (s : Sprites) : Option String :=
  match s.versions with
  | none => none
  | some v =>
    match v.generationV with
    | none => none
    | some g =>
      match g.blackWhite with
      | none => none
      | some b =>
        match b.animated with
        | none => none
        | some a =>
          match a.front_default with
          | none => none
          | some u => if u = "" then none else some u

/-- The fully-chased optional path
`sprites.versions?.['generation-v']?.['black-white']?.animated?.front_default`
(used to state properties of `animatedImageUrl`). -/
def animatedPath (s : Sprites) : Option String :=
  ((((s.versions.bind (fun v => v.generationV)).bind
      (fun g => g.blackWhite)).bind
      (fun b => b.animated)).bind
      (fun a => a.front_default))

/-- `sprites.other?.['official-artwork']?.front_default` (used to state
properties of `defaultImageUrl`). -/
def artworkPath (s : Sprites) : Option String :=
  (s.other.bind (fun o => o.officialArtwork)).bind (fun a => a.front_default)

/-- `sprites.other?.['official-artwork']?.front_default ||
sprites.front_default`: the result is the plain front sprite whenever the
artwork link is absent or falsy, and may itself be absent. -/
def defaultImageUrl (s : Sprites) : Option String :=
  match artworkPath s with
  | some u => if u = "" then s.front_default else some u
  | none => s.front_default

/-! ## The /api/pokemons handler -/

/-- The upstream world seen by the two routes: the list call keyed by the
request URL the handler builds, and the pokemon / species calls keyed by
id. -/
structure PokemonWorld where
  list : String → Except String ListResponse
  pokemon : String → Except String PokemonData
  species : String → Except String SpeciesData

/-- `String.split` on a single separator character, structurally: the JS
`url.split('/')` (keeps empty segments, including a trailing one). -/
def splitChar (sep : Char) : List Char → List (List Char)
  | [] => [[]]
  | c :: rest =>
    match splitChar sep rest with
    | [] => if c = sep then [[], []] else [[c]]
    | g :: gs => if c = sep then [] :: g :: gs else (c :: g) :: gs

/-- `parts = url.split('/'); id = parts[parts.length - 2]` (the segment
just before the trailing slash). -/
def idFromUrl (url : String) : String :=
  let parts := (splitChar '/' url.toList).map (fun g => String.mk g)
  ((parts.reverse).drop 1).headD "undefined"

/-- An ItemSummary record of the list endpoint. -/
structure ItemSummary where
  id : String
  name : String
  types : List String
  animatedImageUrl : Option String
  defaultImageUrl : Option String
deriving DecidableEq, Repr

/-- The body of one `pokemonListItems.map` callback: fetch the pokemon
detail and the species in parallel (either failure fails the item), then
assemble the summary. -/
def processPokemon (cache : Cache) (w : PokemonWorld) (ref : PokemonRef) :
    Except String ItemSummary :=
  match w.pokemon (idFromUrl ref.url) with
  | .error e => .error e
  | .ok pd =>
    match w.species (idFromUrl ref.url) with
    | .error e => .error e
    | .ok sd =>
      .ok
        { id := idFromUrl ref.url
          name := koreanNameOr sd.names ref.name
          types := pd.types.map (fun t => labelFor cache t.typeName)
          animatedImageUrl := animatedImageUrl pd.sprites
          defaultImageUrl := defaultImageUrl pd.sprites }

/-- `Promise.all(list.map f)`: order-preserving, all-or-nothing. -/
def mapME (f : α → Except ε β) : List α → Except ε (List β)
  | [] => .ok []
  | a :: l =>
    match f a with
    | .error e => .error e
    | .ok b =>
      match mapME f l with
      | .error e => .error e
      | .ok bs => .ok (b :: bs)

/-- An HTTP response: `200` with a body, or `500` with a message. -/
inductive HttpResult (α : Type) where
  | ok (body : α)
  | serverError (message : String)
deriving DecidableEq, Repr

/-- Whether a response is a success. -/
def HttpResult.isOk : HttpResult α → Bool
  | .ok _ => true
  | .serverError _ => false

/-- The `200` body of the list endpoint. -/
structure PageResponse where
  count : Nat
  results : List ItemSummary
deriving DecidableEq, Repr

/-- The upstream list-request URL the handler interpolates:
`${POKEAPI_BASE_URL}/pokemon?offset=${offset}&limit=${limit}`. -/
def pokemonListUrl (offset limit : Int) : String :=
  "https://pokeapi.co/api/v2/pokemon?offset=" ++ toString offset ++
    "&limit=" ++ toString limit

/-- The try-block of `/api/pokemons` at already-computed numeric offset and
limit, with the catch collapsing any failure into the generic 500. -/
def getPokemonsCore (cache : Cache) (w : PokemonWorld) (offset limit : Int) :
    HttpResult PageResponse :=
  match w.list (pokemonListUrl offset limit) with
  | .error _ => .serverError "Failed to fetch pokemons"
  | .ok lr =>
    match mapME (processPokemon cache w) lr.results with
    | .error _ => .serverError "Failed to fetch pokemons"
    | .ok items => .ok { count := lr.count, results := items }

/-- The `/api/pokemons` handler: default offset and limit via
`parseInt(q) || dflt`, then run the pipeline. -/
def getPokemons (cache : Cache) (w : PokemonWorld)
    (offsetQ limitQ : Option String) : HttpResult PageResponse :=
  getPokemonsCore cache w (queryIntOr offsetQ 0) (queryIntOr limitQ 20)

/-! ## The /api/pokemon/:id handler -/

/-- One entry of the detail endpoint's reworked `types` array. -/
structure TypePair where
  englishName : String
  koreanName : String
deriving DecidableEq, Repr

/-- The `200` body of the detail endpoint:
`{ ...pokemonData, name: koreanName, types: types }` — the spread keeps
`sprites` and every other field (`rest`) as upstream sent them, and the
two trailing keys override `name` and `types`. -/
structure DetailResponse where
  name : String
  types : List TypePair
  sprites : Sprites
  rest : List (String × String)
deriving DecidableEq, Repr

/-- The `/api/pokemon/:id` handler: fetch the pokemon detail, then the
species (sequentially); any failure is caught and becomes a 500 whose
message names the requested id. -/
def getPokemonDetail (cache : Cache) (w : PokemonWorld) (pokemonId : String) :
    HttpResult DetailResponse :=
  match w.pokemon pokemonId with
  | .error _ => .serverError ("Failed to fetch pokemon " ++ pokemonId)
  | .ok pd =>
    match w.species pokemonId with
    | .error _ => .serverError ("Failed to fetch pokemon " ++ pokemonId)
    | .ok sd =>
      .ok
        { name := koreanNameOr sd.names pd.name
          types := pd.types.map
            (fun t => { englishName := t.typeName
                        koreanName := labelFor cache t.typeName })
          sprites := pd.sprites
          rest := pd.rest }

/-- Whether an upstream call succeeded. -/
def exceptOk : Except ε α → Bool
  | .ok _ => true
  | .error _ => false

/-! ## Concrete sample data for evaluating the theorems -/

/-- A small populated cache. -/
def sampleCache : Cache := [("fire", "불꽃"), ("water", "물")]

/-- A version tree carrying an animated sprite reference. -/
def versionsWith (u : Option String) : SpriteVersions :=
  { generationV := some { blackWhite := some { animated := some { front_default := u } } } }

/-- A sprites object with every image present. -/
def sampleSprites : Sprites :=
  { versions := some (versionsWith (some "anim.gif"))
    other := some { officialArtwork := some { front_default := some "art.png" } }
    front_default := some "front.png" }

/-- A pokemon detail payload. -/
def samplePokemon : PokemonData :=
  { name := "bulbasaur"
    types := [{ typeName := "fire" }, { typeName := "dragon" }]
    sprites := sampleSprites
    rest := [("height", "7"), ("weight", "69")] }

/-- A species payload carrying a Korean name. -/
def sampleSpecies : SpeciesData := { names := [{ name := "이상해씨", languageName := "ko" }] }

/-- A two-reference upstream page with a large total count. -/
def sampleList : ListResponse :=
  { count := 1302
    results := [{ name := "bulbasaur", url := "p/1/" }, { name := "ivysaur", url := "p/2/" }] }

/-- A world where every call succeeds. -/
def sampleWorld : PokemonWorld :=
  { list := fun _ => .ok sampleList
    pokemon := fun _ => .ok samplePokemon
    species := fun _ => .ok sampleSpecies }

/-- A world where the pokemon-detail call for id 2 fails. -/
def failItemWorld : PokemonWorld :=
  { list := fun _ => .ok sampleList
    pokemon := fun i => if i = "2" then .error "boom" else .ok samplePokemon
    species := fun _ => .ok sampleSpecies }

/-- A world where every species call fails. -/
def failSpeciesWorld : PokemonWorld :=
  { list := fun _ => .ok sampleList
    pokemon := fun _ => .ok samplePokemon
    species := fun _ => .error "species down" }

/-- A world whose species payload has a ko entry with an empty name. -/
def emptyKoWorld : PokemonWorld :=
  { list := fun _ => .ok { count := 1, results := [{ name := "bulbasaur", url := "p/1/" }] }
    pokemon := fun _ => .ok samplePokemon
    species := fun _ => .ok { names := [{ name := "", languageName := "ko" }] } }

/-- A type world where population fully succeeds. -/
def sampleTypeWorld : TypeWorld :=
  { typeList := .ok [{ name := "fire", url := "t/10/" }]
    typeDetail := fun _ => .ok { names := [{ name := "불꽃", languageName := "ko" }] } }

/-- A type world whose enumeration call fails. -/
def failTypeWorld : TypeWorld :=
  { typeList := .error "upstream down"
    typeDetail := fun _ => .error "upstream down" }

/-- Sprites whose animated path and artwork are present but empty strings
(falsy in JS). -/
def emptyStringSprites : Sprites :=
  { versions := some (versionsWith (some ""))
    other := some { officialArtwork := some { front_default := some "" } }
    front_default := some "plain.png" }

/-- Sprites with no versions tree and no other-artwork at all. -/
def bareSprites : Sprites :=
  { versions := none, other := none, front_default := some "front.png" }

/-- The page body the sample world produces. -/
def samplePage : PageResponse :=
  { count := 1302
    results :=
      [{ id := "1", name := "이상해씨", types := ["불꽃", "dragon"]
         animatedImageUrl := some "anim.gif", defaultImageUrl := some "art.png" },
       { id := "2", name := "이상해씨", types := ["불꽃", "dragon"]
         animatedImageUrl := some "anim.gif", defaultImageUrl := some "art.png" }] }

/-- The detail body the sample world produces for id 1. -/
def sampleDetailBody : DetailResponse :=
  { name := "이상해씨"
    types := [{ englishName := "fire", koreanName := "불꽃" },
              { englishName := "dragon", koreanName := "dragon" }]
    sprites := sampleSprites
    rest := [("height", "7"), ("weight", "69")] }

/-! ## Helper lemmas -/

theorem mapME_ok_length {α β ε : Type} {f : α → Except ε β} :
    ∀ {l : List α} {ys : List β}, mapME f l = Except.ok ys → ys.length = l.length := by
  intro l
  induction l with
  | nil =>
    intro ys h
    simp only [mapME] at h
    cases h
    rfl
  | cons a l ih =>
    intro ys h
    simp only [mapME] at h
    cases hfa : f a with
    | error e => rw [hfa] at h; cases h
    | ok b =>
      rw [hfa] at h
      cases hm : mapME f l with
      | error e => rw [hm] at h; cases h
      | ok bs =>
        rw [hm] at h
        cases h
        simp [ih hm]

theorem mapME_error_of_mem {α β ε : Type} {f : α → Except ε β} :
    ∀ {l : List α} {a : α} {e : ε}, a ∈ l → f a = Except.error e →
      ∃ eo, mapME f l = Except.error eo := by
  intro l
  induction l with
  | nil => intro a e ha _; simp at ha
  | cons b l ih =>
    intro a e ha hfa
    simp only [mapME]
    cases hfb : f b with
    | error eo => exact ⟨eo, rfl⟩
    | ok v =>
      rcases List.mem_cons.mp ha with h | h
      · subst h; rw [hfa] at hfb; cases hfb
      · obtain ⟨eo, hm⟩ := ih h hfa
        rw [hm]
        exact ⟨eo, rfl⟩

theorem lookupCache_cons (k v k0 : String) (c : Cache) :
    lookupCache ((k, v) :: c) k0 = if k = k0 then some v else lookupCache c k0 := by
  by_cases h : k = k0
  · simp [lookupCache, List.find?, h]
  · simp [lookupCache, List.find?, h]

theorem lookup_insertLabel {c : Cache} {t : TypeRef} {d : TypeDetail}
    {k v : String} (h : lookupCache (insertLabel c t d) k = some v) :
    lookupCache c k = some v ∨
      (t.name = k ∧ findKoName d.names = some v ∧ v ≠ "") := by
  revert h
  unfold insertLabel
  cases hk : findKoName d.names with
  | none => intro h; exact Or.inl h
  | some kn =>
    intro h
    have h2 : lookupCache (if kn = "" then c else (t.name, kn) :: c) k = some v := h
    by_cases hkn : kn = ""
    · rw [if_pos hkn] at h2
      exact Or.inl h2
    · rw [if_neg hkn] at h2
      rw [lookupCache_cons] at h2
      by_cases hname : t.name = k
      · rw [if_pos hname] at h2
        cases h2
        exact Or.inr ⟨hname, rfl, hkn⟩
      · rw [if_neg hname] at h2
        exact Or.inl h2

theorem lookup_typeCallback {detail : String → Except String TypeDetail}
    {c : Cache} {t : TypeRef} {k v : String}
    (h : lookupCache (typeCallback detail c t) k = some v) :
    lookupCache c k = some v ∨
      (t.name = k ∧ ∃ d, detail t.url = Except.ok d ∧
        findKoName d.names = some v ∧ v ≠ "") := by
  revert h
  unfold typeCallback
  cases hd : detail t.url with
  | error e => intro h; exact Or.inl h
  | ok d =>
    intro h
    have h2 : lookupCache (insertLabel c t d) k = some v := h
    rcases lookup_insertLabel h2 with hc | ⟨hn, hk, hv⟩
    · exact Or.inl hc
    · exact Or.inr ⟨hn, d, rfl, hk, hv⟩

theorem lookup_populateTypes {detail : String → Except String TypeDetail} :
    ∀ {ts : List TypeRef} {c : Cache} {k v : String},
      lookupCache (populateTypes detail ts c) k = some v →
      lookupCache c k = some v ∨
        ∃ t, t ∈ ts ∧ t.name = k ∧ ∃ d, detail t.url = Except.ok d ∧
          findKoName d.names = some v ∧ v ≠ "" := by
  intro ts
  induction ts with
  | nil => intro c k v h; exact Or.inl h
  | cons t ts ih =>
    intro c k v h
    simp only [populateTypes] at h
    rcases ih h with hc | ⟨t2, ht2, hrest⟩
    · rcases lookup_typeCallback hc with hc2 | ⟨hn, hex⟩
      · exact Or.inl hc2
      · exact Or.inr ⟨t, List.mem_cons_self t ts, hn, hex⟩
    · exact Or.inr ⟨t2, List.mem_cons_of_mem t ht2, hrest⟩

theorem lookup_loadTypeTranslations {w : TypeWorld} {k v : String}
    (h : lookupCache (loadTypeTranslations w) k = some v) :
    ∃ types, w.typeList = Except.ok types ∧
      ∃ t, t ∈ types ∧ t.name = k ∧ ∃ d, w.typeDetail t.url = Except.ok d ∧
        findKoName d.names = some v ∧ v ≠ "" := by
  unfold loadTypeTranslations at h
  cases hl : w.typeList with
  | error e => rw [hl] at h; simp [lookupCache] at h
  | ok types =>
    rw [hl] at h
    rcases lookup_populateTypes h with hc | ⟨t, ht, hrest⟩
    · simp [lookupCache] at hc
    · exact ⟨types, rfl, t, ht, hrest⟩

theorem processPokemon_ok {cache : Cache} {w : PokemonWorld} {ref : PokemonRef}
    {pd : PokemonData} {sd : SpeciesData}
    (hp : w.pokemon (idFromUrl ref.url) = Except.ok pd)
    (hs : w.species (idFromUrl ref.url) = Except.ok sd) :
    processPokemon cache w ref = Except.ok
      { id := idFromUrl ref.url
        name := koreanNameOr sd.names ref.name
        types := pd.types.map (fun t => labelFor cache t.typeName)
        animatedImageUrl := animatedImageUrl pd.sprites
        defaultImageUrl := defaultImageUrl pd.sprites } := by
  unfold processPokemon
  rw [hp, hs]

theorem processPokemon_ok_eq (c₁ c₂ : Cache) (w : PokemonWorld) (ref : PokemonRef) :
    exceptOk (processPokemon c₁ w ref) = exceptOk (processPokemon c₂ w ref) := by
  unfold processPokemon
  cases hp : w.pokemon (idFromUrl ref.url) with
  | error e => rfl
  | ok pd =>
    cases hs : w.species (idFromUrl ref.url) with
    | error e => rfl
    | ok sd => rfl

theorem mapME_ok_congr {α β ε : Type} (f g : α → Except ε β) :
    ∀ (l : List α), (∀ a ∈ l, exceptOk (f a) = exceptOk (g a)) →
      exceptOk (mapME f l) = exceptOk (mapME g l) := by
  intro l
  induction l with
  | nil => intro _; rfl
  | cons a l ih =>
    intro h
    have ha := h a (List.mem_cons_self a l)
    have ht := ih (fun x hx => h x (List.mem_cons_of_mem a hx))
    simp only [mapME]
    cases hfa : f a with
    | error e =>
      rw [hfa] at ha
      cases hga : g a with
      | error e2 => rfl
      | ok v => rw [hga] at ha; exact absurd ha (by simp [exceptOk])
    | ok b =>
      rw [hfa] at ha
      cases hga : g a with
      | error e2 => rw [hga] at ha; exact absurd ha (by simp [exceptOk])
      | ok b2 =>
        cases hmf : mapME f l with
        | error e =>
          cases hmg : mapME g l with
          | error e2 => rfl
          | ok ys => rw [hmf, hmg] at ht; exact absurd ht (by simp [exceptOk])
        | ok xs =>
          cases hmg : mapME g l with
          | error e2 => rw [hmf, hmg] at ht; exact absurd ht (by simp [exceptOk])
          | ok ys => rfl

theorem matchPage_isOk (m : Except String (List ItemSummary)) (n : Nat) :
    (match m with
     | Except.error _ => HttpResult.serverError "Failed to fetch pokemons"
     | Except.ok items =>
         HttpResult.ok ({ count := n, results := items } : PageResponse)).isOk
      = exceptOk m := by
  cases m with
  | error e => rfl
  | ok items => rfl

theorem getPokemons_isOk_cache (c₁ c₂ : Cache) (w : PokemonWorld)
    (oq lq : Option String) :
    (getPokemons c₁ w oq lq).isOk = (getPokemons c₂ w oq lq).isOk := by
  unfold getPokemons getPokemonsCore
  cases hl : w.list (pokemonListUrl (queryIntOr oq 0) (queryIntOr lq 20)) with
  | error e => rfl
  | ok lr =>
    have h := mapME_ok_congr (processPokemon c₁ w) (processPokemon c₂ w)
      lr.results (fun a _ => processPokemon_ok_eq c₁ c₂ w a)
    have e1 := matchPage_isOk (mapME (processPokemon c₁ w) lr.results) lr.count
    have e2 := matchPage_isOk (mapME (processPokemon c₂ w) lr.results) lr.count
    exact e1.trans (h.trans e2.symm)

theorem animatedImageUrl_eq (s : Sprites) :
    animatedImageUrl s =
      match animatedPath s with
      | some u => if u = "" then none else some u
      | none => none := by
  rcases s with ⟨v, o, pfd⟩
  rcases v with _ | ⟨gv⟩
  · rfl
  rcases gv with _ | ⟨bw⟩
  · rfl
  rcases bw with _ | ⟨an⟩
  · rfl
  rcases an with _ | ⟨fdo⟩
  · rfl
  rcases fdo with _ | ⟨u⟩
  · rfl
  · rfl

/-! ## Claims -/

/-- C1: for every valid pair, FetchPage returns at most limit records
(given that the upstream paginated list itself returns at most limit
references), the records are exactly the per-reference processing results
in upstream reference order, and the returned count equals the upstream
total from the reference-list response regardless of limit. -/
theorem fetchPage_bounded_ordered_counted (cache : Cache) (w : PokemonWorld)
    (offsetQ limitQ : Option String) (lr : ListResponse) (resp : PageResponse)
    (hlist : w.list (pokemonListUrl (queryIntOr offsetQ 0) (queryIntOr limitQ 20))
      = Except.ok lr)
    (hok : getPokemons cache w offsetQ limitQ = HttpResult.ok resp)
    (hbound : (lr.results.length : Int) ≤ queryIntOr limitQ 20) :
    (resp.results.length : Int) ≤ queryIntOr limitQ 20 ∧
    resp.count = lr.count ∧
    resp.results.length = lr.results.length ∧
    mapME (processPokemon cache w) lr.results = Except.ok resp.results := by
  unfold getPokemons getPokemonsCore at hok
  rw [hlist] at hok
  have hok2 : (match mapME (processPokemon cache w) lr.results with
      | Except.error _ => HttpResult.serverError "Failed to fetch pokemons"
      | Except.ok items =>
          HttpResult.ok ({ count := lr.count, results := items } : PageResponse))
      = HttpResult.ok resp := hok
  cases hm : mapME (processPokemon cache w) lr.results with
  | error e => rw [hm] at hok2; cases hok2
  | ok items =>
    rw [hm] at hok2
    injection hok2 with hbody
    subst hbody
    have hlen := mapME_ok_length hm
    exact ⟨by simpa [hlen] using hbound, rfl, hlen, rfl⟩

/-- C1 witness: the sample world with limit query string 2. -/
theorem fetchPage_bounded_ordered_counted_witness :
    (samplePage.results.length : Int) ≤ queryIntOr (some "2") 20 ∧
    samplePage.count = sampleList.count ∧
    samplePage.results.length = sampleList.results.length ∧
    mapME (processPokemon sampleCache sampleWorld) sampleList.results
      = Except.ok samplePage.results :=
  fetchPage_bounded_ordered_counted sampleCache sampleWorld none (some "2")
    sampleList samplePage rfl (by decide) (by decide)

/-- C2: labelFor is total; it returns the cached label when population
stored one for the key (cached labels are always truthy, so the JS
or-fallback cannot misfire) and the raw key when the key is absent, and
both endpoints derive their type strings through labelFor. -/
theorem labelFor_total_lookup (tw : TypeWorld) (k : String) :
    (∀ v, lookupCache (loadTypeTranslations tw) k = some v →
        labelFor (loadTypeTranslations tw) k = v) ∧
    (lookupCache (loadTypeTranslations tw) k = none →
        labelFor (loadTypeTranslations tw) k = k) ∧
    (∀ (cache : Cache) (w : PokemonWorld) (ref : PokemonRef)
        (pd : PokemonData) (sd : SpeciesData),
        w.pokemon (idFromUrl ref.url) = Except.ok pd →
        w.species (idFromUrl ref.url) = Except.ok sd →
        ∃ item, processPokemon cache w ref = Except.ok item ∧
          item.types = pd.types.map (fun t => labelFor cache t.typeName)) ∧
    (∀ (cache : Cache) (w : PokemonWorld) (pid : String)
        (pd : PokemonData) (sd : SpeciesData),
        w.pokemon pid = Except.ok pd → w.species pid = Except.ok sd →
        ∃ body, getPokemonDetail cache w pid = HttpResult.ok body ∧
          body.types = pd.types.map
            (fun t => { englishName := t.typeName
                        koreanName := labelFor cache t.typeName })) := by
  refine ⟨?_, ?_, ?_, ?_⟩
  · intro v hv
    obtain ⟨types, hl, t, ht, hn, d, hd, hk, hne⟩ := lookup_loadTypeTranslations hv
    unfold labelFor orElseStr
    rw [hv]
    simp [hne]
  · intro h
    unfold labelFor orElseStr
    rw [h]
  · intro cache w ref pd sd hp hs
    exact ⟨_, processPokemon_ok hp hs, rfl⟩
  · intro cache w pid pd sd hp hs
    unfold getPokemonDetail
    rw [hp, hs]
    exact ⟨_, rfl, rfl⟩

/-- C2 witness: a populated key returns its label, an absent key returns
itself. -/
theorem labelFor_total_lookup_witness :
    labelFor (loadTypeTranslations sampleTypeWorld) "fire" = "불꽃" ∧
    labelFor (loadTypeTranslations sampleTypeWorld) "ghost" = "ghost" :=
  ⟨(labelFor_total_lookup sampleTypeWorld "fire").1 "불꽃" (by decide),
   (labelFor_total_lookup sampleTypeWorld "ghost").2.1 (by decide)⟩

/-- C3: any sub-fetch failure aborts the whole request: a failed list
fetch or any single item's failed pokemon/species fetch yields the generic
500 for the page (no partial page), and FetchDetail yields a 500 naming
the requested id when its pokemon fetch or its species fetch (after a
successful primary fetch) fails. -/
theorem failure_aborts_whole_request (cache : Cache) (w : PokemonWorld)
    (offsetQ limitQ : Option String) (pid : String) :
    (∀ e, w.list (pokemonListUrl (queryIntOr offsetQ 0) (queryIntOr limitQ 20))
        = Except.error e →
        getPokemons cache w offsetQ limitQ
          = HttpResult.serverError "Failed to fetch pokemons") ∧
    (∀ lr ref e,
        w.list (pokemonListUrl (queryIntOr offsetQ 0) (queryIntOr limitQ 20))
          = Except.ok lr →
        ref ∈ lr.results → processPokemon cache w ref = Except.error e →
        getPokemons cache w offsetQ limitQ
          = HttpResult.serverError "Failed to fetch pokemons") ∧
    (∀ e, w.pokemon pid = Except.error e →
        getPokemonDetail cache w pid
          = HttpResult.serverError ("Failed to fetch pokemon " ++ pid)) ∧
    (∀ pd e, w.pokemon pid = Except.ok pd → w.species pid = Except.error e →
        getPokemonDetail cache w pid
          = HttpResult.serverError ("Failed to fetch pokemon " ++ pid)) := by
  refine ⟨?_, ?_, ?_, ?_⟩
  · intro e he
    unfold getPokemons getPokemonsCore
    rw [he]
  · intro lr ref e hl hmem hproc
    unfold getPokemons getPokemonsCore
    rw [hl]
    obtain ⟨eo, hm⟩ := mapME_error_of_mem hmem hproc
    have hgoal : (match mapME (processPokemon cache w) lr.results with
        | Except.error _ => HttpResult.serverError "Failed to fetch pokemons"
        | Except.ok items =>
            HttpResult.ok ({ count := lr.count, results := items } : PageResponse))
        = HttpResult.serverError "Failed to fetch pokemons" := by rw [hm]
    exact hgoal
  · intro e he
    unfold getPokemonDetail
    rw [he]
  · intro pd e hp hs
    unfold getPokemonDetail
    rw [hp, hs]

/-- C3 witness: one failed item fails the page; a failed species lookup
after a successful primary fetch fails the detail request naming the id. -/
theorem failure_aborts_whole_request_witness :
    getPokemons sampleCache failItemWorld none none
      = HttpResult.serverError "Failed to fetch pokemons" ∧
    getPokemonDetail sampleCache failSpeciesWorld "1"
      = HttpResult.serverError "Failed to fetch pokemon 1" :=
  ⟨(failure_aborts_whole_request sampleCache failItemWorld none none "1").2.1
      sampleList { name := "ivysaur", url := "p/2/" } "boom" rfl (by decide) rfl,
   (failure_aborts_whole_request sampleCache failSpeciesWorld none none "1").2.2.2
      samplePokemon "species down" rfl rfl⟩

/-- C4 counterexample: a payload whose animated path is fully present but
carries the empty string (falsy in JS) gets animatedImageUrl null, not that
sprite; likewise a present-but-empty artwork reference does not become
defaultImageUrl — the plain front sprite is used instead. -/
theorem imageSelection_cex :
    animatedPath emptyStringSprites = some "" ∧
    animatedImageUrl emptyStringSprites = none ∧
    artworkPath emptyStringSprites = some "" ∧
    emptyStringSprites.front_default = some "plain.png" ∧
    defaultImageUrl emptyStringSprites = some "plain.png" := by
  refine ⟨rfl, rfl, rfl, rfl, rfl⟩

/-- C4 amended: animatedImageUrl equals the animated sprite at the
generation-v/black-white/animated/front_default path when that path is
fully present with a non-empty string, and is null when the path is broken
or its value is empty; independently defaultImageUrl equals the
official-artwork front_default when present and non-empty, else the plain
front_default sprite (with no further fallback). -/
theorem imageSelection_amended (s : Sprites) :
    (∀ u, animatedPath s = some u → u ≠ "" → animatedImageUrl s = some u) ∧
    (animatedPath s = none → animatedImageUrl s = none) ∧
    (animatedPath s = some "" → animatedImageUrl s = none) ∧
    (∀ u, artworkPath s = some u → u ≠ "" → defaultImageUrl s = some u) ∧
    (artworkPath s = none → defaultImageUrl s = s.front_default) ∧
    (artworkPath s = some "" → defaultImageUrl s = s.front_default) := by
  refine ⟨?_, ?_, ?_, ?_, ?_, ?_⟩
  · intro u hu hne
    rw [animatedImageUrl_eq, hu]
    simp [hne]
  · intro h
    rw [animatedImageUrl_eq, h]
  · intro h
    rw [animatedImageUrl_eq, h]
    simp
  · intro u hu hne
    unfold defaultImageUrl
    rw [hu]
    simp [hne]
  · intro h
    unfold defaultImageUrl
    rw [h]
  · intro h
    unfold defaultImageUrl
    rw [h]
    simp

/-- C4 witness: a full sprite tree yields the animated GIF and the artwork;
a bare tree yields null and the plain front sprite. -/
theorem imageSelection_amended_witness :
    animatedImageUrl sampleSprites = some "anim.gif" ∧
    defaultImageUrl sampleSprites = some "art.png" ∧
    animatedImageUrl bareSprites = none ∧
    defaultImageUrl bareSprites = bareSprites.front_default :=
  ⟨(imageSelection_amended sampleSprites).1 "anim.gif" rfl (by decide),
   (imageSelection_amended sampleSprites).2.2.2.1 "art.png" rfl (by decide),
   (imageSelection_amended bareSprites).2.1 rfl,
   (imageSelection_amended bareSprites).2.2.2.2.1 rfl⟩

/-- C5 counterexample: a supplied limit of 0 is present and numeric, yet
the handler uses the default 20 rather than the supplied value, because 0
is falsy in JS. -/
theorem queryDefaults_cex :
    parseIntJS "0" = some 0 ∧
    queryIntOr (some "0") 20 = 20 ∧
    queryIntOr (some "0") 20 ≠ 0 ∧
    getPokemons sampleCache sampleWorld none (some "0")
      = getPokemonsCore sampleCache sampleWorld 0 20 := by
  refine ⟨by decide, by decide, by decide, rfl⟩

/-- C5 amended: offset and limit are defaulted to 0 and 20 when the query
parameter is absent, when parseInt yields NaN, and also when parseInt
yields 0 (JS or-default); otherwise the parsed value (of the longest
leading numeric prefix) is used, and the handler runs the pipeline at
exactly these effective values. -/
theorem queryDefaults_amended (cache : Cache) (w : PokemonWorld)
    (offsetQ limitQ : Option String) :
    getPokemons cache w offsetQ limitQ
      = getPokemonsCore cache w (queryIntOr offsetQ 0) (queryIntOr limitQ 20) ∧
    (offsetQ = none → queryIntOr offsetQ 0 = 0) ∧
    (limitQ = none → queryIntOr limitQ 20 = 20) ∧
    (∀ s, offsetQ = some s → parseIntJS s = none → queryIntOr offsetQ 0 = 0) ∧
    (∀ s, limitQ = some s → parseIntJS s = none → queryIntOr limitQ 20 = 20) ∧
    (∀ s, offsetQ = some s → parseIntJS s = some 0 → queryIntOr offsetQ 0 = 0) ∧
    (∀ s, limitQ = some s → parseIntJS s = some 0 → queryIntOr limitQ 20 = 20) ∧
    (∀ s n, offsetQ = some s → parseIntJS s = some n → n ≠ 0 →
        queryIntOr offsetQ 0 = n) ∧
    (∀ s n, limitQ = some s → parseIntJS s = some n → n ≠ 0 →
        queryIntOr limitQ 20 = n) := by
  refine ⟨rfl, ?_, ?_, ?_, ?_, ?_, ?_, ?_, ?_⟩
  · intro h; rw [h]; rfl
  · intro h; rw [h]; rfl
  · intro s h hp
    rw [h]
    show (match parseIntJS s with
          | none => 0
          | some n => if n = 0 then 0 else n : Int) = 0
    rw [hp]
  · intro s h hp
    rw [h]
    show (match parseIntJS s with
          | none => 20
          | some n => if n = 0 then 20 else n : Int) = 20
    rw [hp]
  · intro s h hp
    rw [h]
    show (match parseIntJS s with
          | none => 0
          | some n => if n = 0 then 0 else n : Int) = 0
    rw [hp]
    rfl
  · intro s h hp
    rw [h]
    show (match parseIntJS s with
          | none => 20
          | some n => if n = 0 then 20 else n : Int) = 20
    rw [hp]
    rfl
  · intro s n h hp hn
    rw [h]
    show (match parseIntJS s with
          | none => 0
          | some m => if m = 0 then 0 else m : Int) = n
    rw [hp]
    simp [hn]
  · intro s n h hp hn
    rw [h]
    show (match parseIntJS s with
          | none => 20
          | some m => if m = 0 then 20 else m : Int) = n
    rw [hp]
    simp [hn]

/-- C5 witness: a non-numeric offset defaults to 0 and a numeric limit of
7 is used as supplied. -/
theorem queryDefaults_amended_witness :
    getPokemons sampleCache sampleWorld (some "abc") (some "7")
      = getPokemonsCore sampleCache sampleWorld
          (queryIntOr (some "abc") 0) (queryIntOr (some "7") 20) ∧
    queryIntOr (some "abc") 0 = 0 ∧
    queryIntOr (some "7") 20 = 7 :=
  ⟨(queryDefaults_amended sampleCache sampleWorld (some "abc") (some "7")).1,
   (queryDefaults_amended sampleCache sampleWorld (some "abc") (some "7")).2.2.2.1
      "abc" rfl (by decide),
   (queryDefaults_amended sampleCache sampleWorld (some "abc") (some "7")).2.2.2.2.2.2.2.2
      "7" 7 rfl (by decide) (by decide)⟩

/-- C6 counterexample: a species payload whose ko entry carries the empty
string — a ko entry exists, but the list endpoint falls back to the
reference's given name instead of using that entry's (empty) name. -/
theorem localizedName_cex :
    findKoName [{ name := "", languageName := "ko" }] = some "" ∧
    koreanNameOr [{ name := "", languageName := "ko" }] "bulbasaur" = "bulbasaur" ∧
    getPokemons [] emptyKoWorld none none = HttpResult.ok
      { count := 1
        results := [{ id := "1", name := "bulbasaur", types := ["fire", "dragon"]
                      animatedImageUrl := some "anim.gif"
                      defaultImageUrl := some "art.png" }] } := by
  refine ⟨rfl, rfl, rfl⟩

/-- C6 amended: the localized display name is the first ko name entry's
name when that name is non-empty; when no ko entry exists or its name is
empty, FetchPage falls back to the reference's given name and FetchDetail
falls back to the primary detail's own name field (not the caller-supplied
id). -/
theorem localizedName_amended (names : List NameEntry) (fallback : String) :
    (findKoName names = none → koreanNameOr names fallback = fallback) ∧
    (findKoName names = some "" → koreanNameOr names fallback = fallback) ∧
    (∀ s, findKoName names = some s → s ≠ "" → koreanNameOr names fallback = s) ∧
    (∀ (cache : Cache) (w : PokemonWorld) (ref : PokemonRef)
        (pd : PokemonData) (sd : SpeciesData),
        w.pokemon (idFromUrl ref.url) = Except.ok pd →
        w.species (idFromUrl ref.url) = Except.ok sd →
        ∃ item, processPokemon cache w ref = Except.ok item ∧
          item.name = koreanNameOr sd.names ref.name) ∧
    (∀ (cache : Cache) (w : PokemonWorld) (pid : String)
        (pd : PokemonData) (sd : SpeciesData),
        w.pokemon pid = Except.ok pd → w.species pid = Except.ok sd →
        ∃ body, getPokemonDetail cache w pid = HttpResult.ok body ∧
          body.name = koreanNameOr sd.names pd.name) := by
  refine ⟨?_, ?_, ?_, ?_, ?_⟩
  · intro h
    unfold koreanNameOr orElseStr
    rw [h]
  · intro h
    unfold koreanNameOr orElseStr
    rw [h]
    simp
  · intro s h hs
    unfold koreanNameOr orElseStr
    rw [h]
    simp [hs]
  · intro cache w ref pd sd hp hs
    exact ⟨_, processPokemon_ok hp hs, rfl⟩
  · intro cache w pid pd sd hp hs
    unfold getPokemonDetail
    rw [hp, hs]
    exact ⟨_, rfl, rfl⟩

/-- C6 witness: a non-empty ko entry is used; with no ko entry the
fallback is returned. -/
theorem localizedName_amended_witness :
    koreanNameOr sampleSpecies.names "bulbasaur" = "이상해씨" ∧
    koreanNameOr [] "bulbasaur" = "bulbasaur" :=
  ⟨(localizedName_amended sampleSpecies.names "bulbasaur").2.2.1
      "이상해씨" rfl (by decide),
   (localizedName_amended [] "bulbasaur").1 rfl⟩

/-- C7: a successful FetchDetail response is the full upstream primary
payload with exactly two fields overridden: the display name becomes the
localized name and the category list becomes paired entries; the sprites
object and every other upstream field pass through unmodified. -/
theorem fetchDetail_frame (cache : Cache) (w : PokemonWorld) (pid : String)
    (pd : PokemonData) (sd : SpeciesData)
    (hp : w.pokemon pid = Except.ok pd) (hs : w.species pid = Except.ok sd) :
    getPokemonDetail cache w pid = HttpResult.ok
      { name := koreanNameOr sd.names pd.name
        types := pd.types.map
          (fun t => { englishName := t.typeName
                      koreanName := labelFor cache t.typeName })
        sprites := pd.sprites
        rest := pd.rest } := by
  unfold getPokemonDetail
  rw [hp, hs]

/-- C7 witness: the sample world's detail response keeps sprites and the
opaque upstream fields and overrides only name and types. -/
theorem fetchDetail_frame_witness :
    getPokemonDetail sampleCache sampleWorld "1" = HttpResult.ok sampleDetailBody ∧
    sampleDetailBody.sprites = samplePokemon.sprites ∧
    sampleDetailBody.rest = samplePokemon.rest :=
  ⟨fetchDetail_frame sampleCache sampleWorld "1" samplePokemon sampleSpecies rfl rfl,
   rfl, rfl⟩

/-- C8: if the category-enumeration call fails, the catch leaves the
cache empty and only logs; labelFor on the empty cache returns the raw
key (for example water), and no list request's success or failure depends
on the cache contents, so requests keep being served unchanged. -/
theorem population_failure_degrades_gracefully (tw : TypeWorld) (e : String)
    (h : tw.typeList = Except.error e) :
    loadTypeTranslations tw = [] ∧
    labelFor (loadTypeTranslations tw) "water" = "water" ∧
    (∀ (c : Cache) (w : PokemonWorld) (oq lq : Option String),
        (getPokemons (loadTypeTranslations tw) w oq lq).isOk
          = (getPokemons c w oq lq).isOk) := by
  have hc : loadTypeTranslations tw = [] := by
    unfold loadTypeTranslations
    rw [h]
  refine ⟨hc, ?_, ?_⟩
  · rw [hc]
    rfl
  · intro c w oq lq
    exact getPokemons_isOk_cache (loadTypeTranslations tw) c w oq lq

/-- C8 witness: the failing type world yields an empty cache, the literal
fallback for water, and a still-succeeding list request. -/
theorem population_failure_degrades_gracefully_witness :
    loadTypeTranslations failTypeWorld = [] ∧
    labelFor (loadTypeTranslations failTypeWorld) "water" = "water" ∧
    (getPokemons (loadTypeTranslations failTypeWorld) sampleWorld none none).isOk
      = (getPokemons sampleCache sampleWorld none none).isOk :=
  ⟨(population_failure_degrades_gracefully failTypeWorld "upstream down" rfl).1,
   (population_failure_degrades_gracefully failTypeWorld "upstream down" rfl).2.1,
   (population_failure_degrades_gracefully failTypeWorld "upstream down" rfl).2.2
      sampleCache sampleWorld none none⟩

/-- C9: a query parameter that parses to a negative integer is neither
rejected nor replaced by the default: it becomes the effective offset or
limit, and the handler builds the upstream list URL from exactly these
effective values, so the negative number is forwarded upstream. -/
theorem negativeParams_forwarded (s : String) (n : Int)
    (hs : parseIntJS s = some n) (hneg : n < 0) :
    queryIntOr (some s) 0 = n ∧
    queryIntOr (some s) 20 = n ∧
    (∀ (cache : Cache) (w : PokemonWorld) (lq : Option String),
        getPokemons cache w (some s) lq
          = getPokemonsCore cache w n (queryIntOr lq 20)) ∧
    (∀ (cache : Cache) (w : PokemonWorld) (oq : Option String),
        getPokemons cache w oq (some s)
          = getPokemonsCore cache w (queryIntOr oq 0) n) ∧
    (∀ m : Int, pokemonListUrl n m =
        "https://pokeapi.co/api/v2/pokemon?offset=" ++ toString n
          ++ "&limit=" ++ toString m) := by
  have hn0 : n ≠ 0 := by omega
  have hq : ∀ d : Int, queryIntOr (some s) d = n := by
    intro d
    show (match parseIntJS s with
          | none => d
          | some m => if m = 0 then d else m : Int) = n
    rw [hs]
    simp [hn0]
  refine ⟨hq 0, hq 20, ?_, ?_, fun m => rfl⟩
  · intro cache w lq
    unfold getPokemons
    rw [hq 0]
  · intro cache w oq
    unfold getPokemons
    rw [hq 20]

/-- C9 witness: offset -5 is used as supplied and lands in the upstream
URL. -/
theorem negativeParams_forwarded_witness :
    queryIntOr (some "-5") 0 = -5 ∧
    getPokemons sampleCache sampleWorld (some "-5") none
      = getPokemonsCore sampleCache sampleWorld (-5) (queryIntOr none 20) ∧
    pokemonListUrl (-5) 20
      = "https://pokeapi.co/api/v2/pokemon?offset=" ++ toString (-5 : Int)
          ++ "&limit=" ++ toString (20 : Int) :=
  ⟨(negativeParams_forwarded "-5" (-5) (by decide) (by decide)).1,
   (negativeParams_forwarded "-5" (-5) (by decide) (by decide)).2.2.1
      sampleCache sampleWorld none,
   (negativeParams_forwarded "-5" (-5) (by decide) (by decide)).2.2.2.2 20⟩

/-- C10: every value the population ever stores in the cache is a truthy
(non-empty) ko label found in some listed category's detail payload;
categories with no such label are never inserted. -/
theorem cache_entries_truthy (tw : TypeWorld) (k v : String)
    (h : lookupCache (loadTypeTranslations tw) k = some v) :
    v ≠ "" ∧ ∃ types, tw.typeList = Except.ok types ∧
      ∃ t, t ∈ types ∧ t.name = k ∧ ∃ d, tw.typeDetail t.url = Except.ok d ∧
        findKoName d.names = some v := by
  obtain ⟨types, hl, t, ht, hn, d, hd, hk, hne⟩ := lookup_loadTypeTranslations h
  exact ⟨hne, types, hl, t, ht, hn, d, hd, hk⟩

/-- C10 witness: the single stored entry of the sample type world. -/
theorem cache_entries_truthy_witness :
    "불꽃" ≠ "" ∧ ∃ types, sampleTypeWorld.typeList = Except.ok types ∧
      ∃ t, t ∈ types ∧ t.name = "fire" ∧
        ∃ d, sampleTypeWorld.typeDetail t.url = Except.ok d ∧
          findKoName d.names = some "불꽃" :=
  cache_entries_truthy sampleTypeWorld "fire" "불꽃" (by decide)

end Inpokedex
